import Mathlib

/-!
Shallow embedding of the trap boundary of zerovm (src/syscalls/trap.c).

The handlers ZVMReadHandle, ZVMWriteHandle, ZVMProtHandle and the dispatcher
TrapHandler are translated directly from the C source.  External collaborators
that live outside src/ (the user-map bookkeeping in src/loader/usermap.c, the
address translation in src/loader/userspace.c, the code validator, the channel
byte-transfer layer, the daemon/fork collaborator) are modelled from the spec,
each marked by a doc comment starting with "Modelled from the spec:".

C machine integers are modelled as unbounded Int with explicit two's-complement
wrapping (wrap32 / wrap64) at every point where the C code performs a narrowing
assignment or conversion.
-/

/-- Linux errno value EPERM (operation not permitted). -/
def EPERM : Int := 1

/-- Linux errno value EACCES (access denied). -/
def EACCES : Int := 13

/-- Linux errno value EFAULT (bad address). -/
def EFAULT : Int := 14

/-- Linux errno value EINVAL (invalid argument). -/
def EINVAL : Int := 22

/-- Linux errno value EDQUOT (quota exceeded). -/
def EDQUOT : Int := 122

/-- mman protection bit PROT_NONE. -/
def PROT_NONE : Nat := 0

/-- mman protection bit PROT_READ. -/
def PROT_READ : Nat := 1

/-- mman protection bit PROT_WRITE. -/
def PROT_WRITE : Nat := 2

/-- mman protection bit PROT_EXEC. -/
def PROT_EXEC : Nat := 4

/-- Modelled from the spec: the platform page granularity NACL_MAP_PAGESIZE
(64 KiB in the NaCl loader headers, which are not under src/). -/
def NACL_MAP_PAGESIZE : Nat := 65536

/-- Two's-complement wrap of an unbounded integer into the int32_t range,
used wherever the C code narrows to a 32-bit signed value. -/
def wrap32 (x : Int) : Int := (x + 2 ^ 31) % 2 ^ 32 - 2 ^ 31

/-- Two's-complement wrap of an unbounded integer into the int64_t range,
used where a uint64_t argument word is passed to an int64_t parameter. -/
def wrap64 (x : Int) : Int := (x + 2 ^ 63) % 2 ^ 64 - 2 ^ 63

/-- Quota dimensions of a channel, as in the limits/counters arrays of
struct ChannelDesc: operation counts (GetsLimit/PutsLimit) and cumulative
byte sizes (GetSizeLimit/PutSizeLimit). -/
inductive LimitKind where
  | GetsLimit
  | GetSizeLimit
  | PutsLimit
  | PutSizeLimit
deriving DecidableEq

/-- Modelled from the spec: one channel descriptor.  The mode-flag fields model
the CH_SEQ_READABLE / CH_SEQ_WRITEABLE / CH_RND_WRITEABLE predicates of
src/channels/channel.h, which is not under src/; size, getpos, putpos,
counters, limits and eof are the struct ChannelDesc fields used by trap.c. -/
structure ChannelDesc where
  seq_readable : Bool
  seq_writeable : Bool
  rnd_writeable : Bool
  size : Int
  getpos : Int
  putpos : Int
  eof : Bool
  counters : LimitKind → Int
  limits : LimitKind → Int

instance : Inhabited ChannelDesc :=
  ⟨⟨false, false, false, 0, 0, 0, false, fun _ => 0, fun _ => 0⟩⟩

/-- CH_CH macro: fetch channel number ch from the manifest's channel table. -/
def CH_CH (channels : List ChannelDesc) (ch : Nat) : ChannelDesc :=
  channels.getD ch default

/-- CH_SEQ_READABLE predicate of channel.h (modelled as a stored flag). -/
def CH_SEQ_READABLE (c : ChannelDesc) : Bool := c.seq_readable

/-- CH_SEQ_WRITEABLE predicate of channel.h (modelled as a stored flag). -/
def CH_SEQ_WRITEABLE (c : ChannelDesc) : Bool := c.seq_writeable

/-- CH_RND_WRITEABLE predicate of channel.h (modelled as a stored flag). -/
def CH_RND_WRITEABLE (c : ChannelDesc) : Bool := c.rnd_writeable

/-- Modelled from the spec: the per-page protection map maintained by
src/loader/usermap.c (not under src/).  A page maps to its protection bits,
none meaning the page is not under host management. -/
def UserMap : Type := Nat → Option Nat

/-- Pages covered by the byte range [addr, addr + size). -/
def pageSpan (addr size : Nat) : List Nat :=
  if size = 0 then []
  else List.range' (addr / NACL_MAP_PAGESIZE)
    ((addr + size - 1) / NACL_MAP_PAGESIZE - addr / NACL_MAP_PAGESIZE + 1)

/-- Modelled from the spec: CheckUserMap of src/loader/usermap.c.  Returns 0
when the whole range is mapped with at least the required permission bits,
-1 otherwise ("true only if the entire range is currently mapped with at
least requiredPermission"). -/
def CheckUserMap (m : UserMap) (addr size perm : Nat) : Int :=
  if (pageSpan addr size).all (fun p =>
      match m p with
      | some b => b &&& perm == perm
      | none => false) then 0 else -1

/-- A delegated byte transfer: the call the handler makes to the external
channel collaborator (ChannelRead or ChannelWrite) with the effective
size and offset. -/
inductive IOAct where
  | read (ch : Int) (size : Int) (offset : Int)
  | write (ch : Int) (size : Int) (offset : Int)
deriving DecidableEq

/-- Modelled from the spec: the environment of external collaborators that
trap.c calls into.  memStart is the base used by the pure address-space
arithmetic of the translation helpers; validates is the external code
validator; zmOk and errno model the outcome of the underlying OS protection
call; mem64 reads a 64-bit word of (already translated) memory; daemonResult
is the fork collaborator's return; chanResult is the byte count (or error)
returned by the external channel transfer. -/
structure Env where
  memStart : Nat
  validates : Nat → Nat → Nat → Bool
  zmOk : Bool
  errno : Nat
  mem64 : Nat → Nat
  daemonResult : Int
  chanResult : IOAct → Int

/-- Modelled from the spec: NaClUserToSysAddrNullOkay of src/loader/userspace.c
is pure address-space arithmetic; the sentinel it yields for out-of-range
input is subsumed here by CheckUserMap rejecting unmapped ranges. -/
def NaClUserToSysAddrNullOkay (env : Env) (addr : Nat) : Nat :=
  env.memStart + addr

/-- Modelled from the spec: NaClUserToSys of src/loader/userspace.c, the same
pure address-space arithmetic for addresses already known valid. -/
def NaClUserToSys (env : Env) (addr : Nat) : Nat :=
  env.memStart + addr

/-- Modelled from the spec: Zmprotect applies protection bits to every page of
the range and returns 0; on a low-level OS failure it returns nonzero and
leaves the map unchanged (the caller then surfaces -errno). -/
def Zmprotect (env : Env) (m : UserMap) (addr size prot : Nat) : Int × UserMap :=
  if env.zmOk then
    (0, fun p => if (pageSpan addr size).contains p then some prot else m p)
  else (-1, m)

/-- Outcome of a read/write handler: either an immediate return with a code
(no byte transfer, no channel mutation), or delegation of the transfer to
the external channel collaborator with the effective size and offset. -/
inductive IOResult where
  | ret (code : Int)
  | transfer (size : Int) (offset : Int)
deriving DecidableEq

/-- Continuation of ZVMReadHandle after the sequential/random split: the eof
check (line 75 of trap.c), the read-count quota check, the read-byte quota
clamp and the delegation to ChannelRead. -/
def ZVMReadTail (channel : ChannelDesc) (size offset : Int) : IOResult :=
  if channel.eof then .ret 0 else
  if channel.counters LimitKind.GetsLimit ≥ channel.limits LimitKind.GetsLimit then
    .ret (-EDQUOT)
  else
    let tail := channel.limits LimitKind.GetSizeLimit -
      channel.counters LimitKind.GetSizeLimit
    let size2 := if size > tail then wrap32 tail else size
    if size2 < 1 then .ret (-EDQUOT)
    else .transfer size2 offset

/-- ZVMReadHandle of trap.c: validate the channel handle, the size, the offset
and the guest buffer; substitute the sequential read cursor or clamp against
the declared size; honour eof; enforce the read-count and read-byte quotas;
then delegate the transfer. -/
def ZVMReadHandle (env : Env) (m : UserMap) (channels : List ChannelDesc)
    (ch : Int) (buffer : Nat) (size : Int) (offset : Int) : IOResult :=
  if ch < 0 ∨ ch ≥ (channels.length : Int) then .ret (-EINVAL) else
  let channel := CH_CH channels ch.toNat
  if size < 0 then .ret (-EFAULT) else
  if offset < 0 then .ret (-EINVAL) else
  if size = 0 then .ret 0 else
  let sys_buffer := NaClUserToSysAddrNullOkay env buffer
  if CheckUserMap m sys_buffer size.toNat PROT_WRITE = -1 then .ret (-EINVAL) else
  if CH_SEQ_READABLE channel then
    ZVMReadTail channel size channel.getpos
  else
    let size1 := wrap32 (min (channel.size - offset) size)
    if size1 = 0 then .ret 0
    else ZVMReadTail channel size1 offset

/-- ZVMWriteHandle of trap.c: validate the channel handle, the size, the offset
and the guest buffer; substitute the sequential write cursor; enforce the
write-count quota; reject offsets beyond the size-quota limit (random-access)
or beyond size + remaining byte budget (any channel); clamp to the remaining
byte budget; then delegate the transfer. -/
def ZVMWriteHandle (env : Env) (m : UserMap) (channels : List ChannelDesc)
    (ch : Int) (buffer : Nat) (size : Int) (offset : Int) : IOResult :=
  if ch < 0 ∨ ch ≥ (channels.length : Int) then .ret (-EINVAL) else
  let channel := CH_CH channels ch.toNat
  if size < 0 then .ret (-EFAULT) else
  if offset < 0 then .ret (-EINVAL) else
  if size = 0 then .ret 0 else
  let sys_buffer := NaClUserToSysAddrNullOkay env buffer
  if CheckUserMap m sys_buffer size.toNat PROT_READ = -1 then .ret (-EINVAL) else
  let offset := if CH_SEQ_WRITEABLE channel then channel.putpos else offset
  if channel.counters LimitKind.PutsLimit ≥ channel.limits LimitKind.PutsLimit then
    .ret (-EDQUOT)
  else
  let tail := channel.limits LimitKind.PutSizeLimit -
    channel.counters LimitKind.PutSizeLimit
  if CH_RND_WRITEABLE channel ∧ offset ≥ channel.limits LimitKind.PutSizeLimit then
    .ret (-EINVAL)
  else
  if offset ≥ channel.size + tail then .ret (-EINVAL) else
  let size := if size > tail then wrap32 tail else size
  if size < 1 then .ret (-EDQUOT)
  else .transfer size offset

/-- ZVMProtHandle of trap.c: translate the address, require page-granularity
alignment of size and translated address, require the range to be mapped,
then dispatch on the protection combination; executable requests must pass
the readability check and the external validator before Zmprotect runs.
Returns the result code together with the (possibly updated) user map. -/
def ZVMProtHandle (env : Env) (m : UserMap) (addr size : Nat) (prot : Int) :
    Int × UserMap :=
  let sysaddr := NaClUserToSysAddrNullOkay env addr
  if size % NACL_MAP_PAGESIZE ≠ 0 then (-EINVAL, m) else
  if sysaddr % NACL_MAP_PAGESIZE ≠ 0 then (-EINVAL, m) else
  if CheckUserMap m sysaddr size 0 < 0 then (-EACCES, m) else
  if prot = (PROT_NONE : Int) ∨ prot = (PROT_READ : Int) ∨
      prot = (PROT_WRITE : Int) ∨ prot = ((PROT_READ ||| PROT_WRITE : Nat) : Int) then
    let r := Zmprotect env m sysaddr size prot.toNat
    (if r.1 ≠ 0 then -(env.errno : Int) else 0, r.2)
  else if prot = (PROT_EXEC : Int) ∨ prot = ((PROT_READ ||| PROT_EXEC : Nat) : Int) then
    if CheckUserMap m sysaddr size PROT_READ ≠ 0 then (-EACCES, m)
    else if env.validates sysaddr size addr = false then (-EPERM, m)
    else
      let r := Zmprotect env m sysaddr size prot.toNat
      (if r.1 ≠ 0 then -(env.errno : Int) else 0, r.2)
  else (-EPERM, m)

/-- Modelled from the spec: trap operation code Fork (ABI header not in src). -/
def TrapFork : Nat := 0x6b726f46

/-- Modelled from the spec: trap operation code Exit (ABI header not in src). -/
def TrapExit : Nat := 0x74697845

/-- Modelled from the spec: trap operation code Read (ABI header not in src). -/
def TrapRead : Nat := 0x64616552

/-- Modelled from the spec: trap operation code Write (ABI header not in src). -/
def TrapWrite : Nat := 0x65746957

/-- Modelled from the spec: trap operation code Prot (ABI header not in src). -/
def TrapProt : Nat := 0x746f7250

/-- Modelled from the spec: trap operation code Test (ABI header not in src). -/
def TrapTest : Nat := 0x74736554

/-- Outcome of one trap dispatch.  early means TrapHandler returned the code
before translating the argument pointer or dispatching any handler;
terminated means the session ended through the exit path with the recorded
user code; done carries the retcode returned to the guest, the user map
after the call, and the delegated byte transfer when one happened. -/
inductive TrapResult where
  | early (code : Int)
  | terminated (userCode : Nat)
  | done (retcode : Int) (m : UserMap) (act : Option IOAct)

/-- TrapHandler of trap.c: reject argument-vector addresses that would wrap
past the 32-bit address space, translate the pointer, read the argument
vector and dispatch on its first word; unknown codes return -EPERM with no
state change.  The channel table is never mutated by the dispatcher itself
(transfers are delegated, recorded in the act field). -/
def TrapHandler (env : Env) (m : UserMap) (channels : List ChannelDesc)
    (args : Nat) : TrapResult :=
  if args > 2 ^ 32 - 48 then .early (-EFAULT) else
  let base := NaClUserToSys env args
  let op := env.mem64 base
  let sarg := fun i => env.mem64 (base + 8 * i)
  if op = TrapFork then
    let retcode := env.daemonResult
    if retcode ≠ 0 then .done retcode m none else .terminated 0
  else if op = TrapExit then .terminated (sarg 2)
  else if op = TrapRead then
    match ZVMReadHandle env m channels (wrap32 (sarg 2)) (sarg 3)
        (wrap32 (sarg 4)) (wrap64 (sarg 5)) with
    | .ret c => .done c m none
    | .transfer sz off =>
        let act := IOAct.read (wrap32 (sarg 2)) sz off
        .done (env.chanResult act) m (some act)
  else if op = TrapWrite then
    match ZVMWriteHandle env m channels (wrap32 (sarg 2)) (sarg 3)
        (wrap32 (sarg 4)) (wrap64 (sarg 5)) with
    | .ret c => .done c m none
    | .transfer sz off =>
        let act := IOAct.write (wrap32 (sarg 2)) sz off
        .done (env.chanResult act) m (some act)
  else if op = TrapProt then
    let r := ZVMProtHandle env m (sarg 2 % 2 ^ 32) (sarg 3 % 2 ^ 32) (wrap32 (sarg 4))
    .done r.1 r.2 none
  else if op = TrapTest then .terminated 0
  else .done (-EPERM) m none

/-- Effective write offset after the sequential-cursor substitution of
line 127 of trap.c. -/
def writeEffOffset (channel : ChannelDesc) (offset : Int) : Int :=
  if CH_SEQ_WRITEABLE channel then channel.putpos else offset

/-- Remaining write-byte budget of a channel (the tail of line 132). -/
def putTail (channel : ChannelDesc) : Int :=
  channel.limits LimitKind.PutSizeLimit - channel.counters LimitKind.PutSizeLimit

/-- Remaining read-byte budget of a channel (the tail of line 82). -/
def getTail (channel : ChannelDesc) : Int :=
  channel.limits LimitKind.GetSizeLimit - channel.counters LimitKind.GetSizeLimit

/-- Fixture environment for the concrete witnesses: zero translation base,
a validator that rejects everything, successful OS protection calls, and
zeroed guest memory. -/
def envW : Env where
  memStart := 0
  validates := fun _ _ _ => false
  zmOk := true
  errno := 0
  mem64 := fun _ => 0
  daemonResult := 0
  chanResult := fun _ => 0

/-- Fixture user map: page 0 mapped read/write/exec, all other pages
unmapped. -/
def mW : UserMap := fun p => if p = 0 then some 7 else none

/-- Fixture random-access channel: declared size 10, all quota limits 100,
no quota consumed, eof unset. -/
def cRnd10 : ChannelDesc where
  seq_readable := false
  seq_writeable := false
  rnd_writeable := false
  size := 10
  getpos := 0
  putpos := 0
  eof := false
  counters := fun _ => 0
  limits := fun _ => 100

/-- Fixture channel with the eof flag set. -/
def cEof : ChannelDesc := { cRnd10 with eof := true }

/-- Fixture sequential-readable channel with eof set and every quota counter
already at its limit. -/
def cEofQuota : ChannelDesc :=
  { cRnd10 with seq_readable := true, eof := true, counters := fun _ => 100 }

/-- Fixture sequential-readable channel with eof unset and every quota counter
already at its limit. -/
def cQuota : ChannelDesc :=
  { cRnd10 with seq_readable := true, counters := fun _ => 100 }

/-- Fixture random-access writable channel: declared size 10, write-byte
limit 100, nothing consumed. -/
def cRndW : ChannelDesc := { cRnd10 with rnd_writeable := true }

/-- Fixture sequential-writable channel whose write cursor sits at
size + remaining write-byte budget (10 + 100). -/
def cSeqW : ChannelDesc := { cRnd10 with seq_writeable := true, putpos := 110 }

/-- wrap32 is the identity on values already inside the int32_t range. -/
theorem wrap32_eq_of_range (x : Int) (h1 : -(2 ^ 31) ≤ x) (h2 : x < 2 ^ 31) :
    wrap32 x = x := by
  unfold wrap32
  omega

/-- C6: for every argument-vector address args with args > 2^32 - 48 (so that
args plus the fixed 48-byte vector size overflows the 32-bit address space),
TrapHandler returns -EFAULT immediately, before translating the pointer or
dispatching any handler (the early constructor records exactly that path). -/
theorem C6_args_overflow_fault (env : Env) (m : UserMap)
    (channels : List ChannelDesc) (args : Nat) (h : args > 2 ^ 32 - 48) :
    TrapHandler env m channels args = .early (-EFAULT) := by
  unfold TrapHandler
  rw [if_pos h]

/-- Witness for C6 at the concrete address 2^32 - 47. -/
theorem C6_args_overflow_fault_witness :
    TrapHandler envW mW [] (2 ^ 32 - 47) = .early (-EFAULT) :=
  C6_args_overflow_fault envW mW [] (2 ^ 32 - 47) (by norm_num)

/-- C7: when the translation base is page-aligned, a protection request whose
address or size is not a multiple of the page granularity returns -EINVAL for
any protection flags, with the protection map unchanged (the mapping check and
the protection change are never reached). -/
theorem C7_unaligned_einval (env : Env) (m : UserMap) (addr size : Nat)
    (prot : Int) (hms : env.memStart % NACL_MAP_PAGESIZE = 0)
    (h : addr % NACL_MAP_PAGESIZE ≠ 0 ∨ size % NACL_MAP_PAGESIZE ≠ 0) :
    ZVMProtHandle env m addr size prot = (-EINVAL, m) := by
  unfold ZVMProtHandle NaClUserToSysAddrNullOkay
  rcases h with h | h
  · have hsys : (env.memStart + addr) % NACL_MAP_PAGESIZE ≠ 0 := by
      rw [Nat.add_mod, hms]
      simpa using h
    by_cases hs : size % NACL_MAP_PAGESIZE = 0
    · simp [hs, hsys]
    · simp [hs]
  · simp [h]

/-- Witness for C7 at address 100 (not page-aligned) with an aligned size. -/
theorem C7_unaligned_einval_witness :
    ZVMProtHandle envW mW 100 NACL_MAP_PAGESIZE (PROT_EXEC : Int) =
      (-EINVAL, mW) :=
  C7_unaligned_einval envW mW 100 NACL_MAP_PAGESIZE (PROT_EXEC : Int)
    (by decide) (Or.inl (by decide))

/-- C8: a trap whose operation code (word 0 of the argument vector) is none of
Fork, Exit, Read, Write, Prot, Test returns -EPERM with the protection map
unchanged and no delegated channel transfer (the model's only side-effecting
paths), provided the argument address itself passes the overflow guard. -/
theorem C8_unknown_op_eperm (env : Env) (m : UserMap)
    (channels : List ChannelDesc) (args : Nat) (hargs : args ≤ 2 ^ 32 - 48)
    (h1 : env.mem64 (NaClUserToSys env args) ≠ TrapFork)
    (h2 : env.mem64 (NaClUserToSys env args) ≠ TrapExit)
    (h3 : env.mem64 (NaClUserToSys env args) ≠ TrapRead)
    (h4 : env.mem64 (NaClUserToSys env args) ≠ TrapWrite)
    (h5 : env.mem64 (NaClUserToSys env args) ≠ TrapProt)
    (h6 : env.mem64 (NaClUserToSys env args) ≠ TrapTest) :
    TrapHandler env m channels args = .done (-EPERM) m none := by
  have hng : ¬args > 2 ^ 32 - 48 := by omega
  simp [TrapHandler, hng, h1, h2, h3, h4, h5, h6]
  omega

/-- Witness for C8: operation code 0 (envW's memory is zeroed) is unknown. -/
theorem C8_unknown_op_eperm_witness :
    TrapHandler envW mW [] 0 = .done (-EPERM) mW none :=
  C8_unknown_op_eperm envW mW [] 0 (by norm_num) (by decide) (by decide)
    (by decide) (by decide) (by decide) (by decide)

/-- C9: a Read or Write with requested size exactly 0 on a valid channel
handle with nonnegative offset returns 0 and delegates no transfer, for every
environment and every user-map state — so the guest buffer is never checked
for mapping or permission (it may be null or unmapped) and no quota state is
consulted or consumed. -/
theorem C9_zero_size_noop (env : Env) (m : UserMap)
    (channels : List ChannelDesc) (ch : Int) (buffer : Nat) (offset : Int)
    (hlo : 0 ≤ ch) (hhi : ch < (channels.length : Int)) (ho : 0 ≤ offset) :
    ZVMReadHandle env m channels ch buffer 0 offset = .ret 0 ∧
    ZVMWriteHandle env m channels ch buffer 0 offset = .ret 0 := by
  have hg : ¬(ch < 0 ∨ ch ≥ (channels.length : Int)) := by omega
  have ho' : ¬(offset < 0) := by omega
  constructor <;> simp [ZVMReadHandle, ZVMWriteHandle, hg, ho']

/-- Witness for C9 on channel 0 with a null buffer in an unmapped state. -/
theorem C9_zero_size_noop_witness :
    ZVMReadHandle envW (fun _ => none) [cRnd10] 0 0 0 0 = .ret 0 ∧
    ZVMWriteHandle envW (fun _ => none) [cRnd10] 0 0 0 0 = .ret 0 :=
  C9_zero_size_noop envW (fun _ => none) [cRnd10] 0 0 0 (by decide)
    (by decide) (by decide)

/-- C5: in the write handler, after argument validation and the write-count
quota check, a random-access writable channel rejects an effective offset at
or beyond the PutSizeLimit quota with -EINVAL, and (separately, for the same
validated call) an effective offset at or beyond channel.size + tail is
rejected with -EINVAL; in both cases no transfer is delegated. -/
theorem C5_write_offset_bounds (env : Env) (m : UserMap)
    (channels : List ChannelDesc) (ch : Int) (buffer : Nat) (size offset : Int)
    (hlo : 0 ≤ ch) (hhi : ch < (channels.length : Int)) (hs : 0 < size)
    (ho : 0 ≤ offset)
    (hbuf : CheckUserMap m (env.memStart + buffer) size.toNat PROT_READ ≠ -1)
    (hcnt : (CH_CH channels ch.toNat).counters LimitKind.PutsLimit <
      (CH_CH channels ch.toNat).limits LimitKind.PutsLimit) :
    (CH_RND_WRITEABLE (CH_CH channels ch.toNat) = true →
      writeEffOffset (CH_CH channels ch.toNat) offset ≥
        (CH_CH channels ch.toNat).limits LimitKind.PutSizeLimit →
      ZVMWriteHandle env m channels ch buffer size offset = .ret (-EINVAL)) ∧
    (writeEffOffset (CH_CH channels ch.toNat) offset ≥
        (CH_CH channels ch.toNat).size + putTail (CH_CH channels ch.toNat) →
      ZVMWriteHandle env m channels ch buffer size offset = .ret (-EINVAL)) := by
  have hg : ¬(ch < 0 ∨ ch ≥ (channels.length : Int)) := by omega
  have h1 : ¬size < 0 := by omega
  have h2 : ¬offset < 0 := by omega
  have h3 : ¬size = 0 := by omega
  have hcnt' : ¬((CH_CH channels ch.toNat).counters LimitKind.PutsLimit ≥
      (CH_CH channels ch.toNat).limits LimitKind.PutsLimit) := by omega
  constructor
  · intro hrnd hoff
    simp only [writeEffOffset] at hoff
    simp [ZVMWriteHandle, NaClUserToSysAddrNullOkay, hg, h1, h2, h3, hbuf,
      hcnt', hrnd, hoff]
  · intro hoff
    simp only [writeEffOffset, putTail] at hoff
    by_cases hc : CH_RND_WRITEABLE (CH_CH channels ch.toNat) = true ∧
        (if CH_SEQ_WRITEABLE (CH_CH channels ch.toNat) then
          (CH_CH channels ch.toNat).putpos else offset) ≥
          (CH_CH channels ch.toNat).limits LimitKind.PutSizeLimit
    · simp [ZVMWriteHandle, NaClUserToSysAddrNullOkay, hg, h1, h2, h3, hbuf,
        hcnt', hc]
    · simp [ZVMWriteHandle, NaClUserToSysAddrNullOkay, hg, h1, h2, h3, hbuf,
        hcnt', hc, hoff]

/-- Witness for C5: the random-access writable fixture channel rejects a
write at offset 100 (its PutSizeLimit). -/
theorem C5_write_offset_bounds_witness :
    ZVMWriteHandle envW mW [cRndW] 0 0 1 100 = .ret (-EINVAL) :=
  (C5_write_offset_bounds envW mW [cRndW] 0 0 1 100 (by decide) (by decide)
    (by decide) (by decide) (by decide) (by decide)).1 (by decide) (by decide)

/-- C10: the channel.size + tail bound of the write handler also governs
sequential-writable channels, applied to the internal putpos cursor that
replaces the caller's offset: once the cursor has reached
channel.size + remaining write-byte budget, a validated write returns
-EINVAL before any transfer. -/
theorem C10_seq_write_extent_bound (env : Env) (m : UserMap)
    (channels : List ChannelDesc) (ch : Int) (buffer : Nat) (size offset : Int)
    (hlo : 0 ≤ ch) (hhi : ch < (channels.length : Int)) (hs : 0 < size)
    (ho : 0 ≤ offset)
    (hbuf : CheckUserMap m (env.memStart + buffer) size.toNat PROT_READ ≠ -1)
    (hcnt : (CH_CH channels ch.toNat).counters LimitKind.PutsLimit <
      (CH_CH channels ch.toNat).limits LimitKind.PutsLimit)
    (hseq : CH_SEQ_WRITEABLE (CH_CH channels ch.toNat) = true)
    (hpos : (CH_CH channels ch.toNat).putpos ≥
      (CH_CH channels ch.toNat).size + putTail (CH_CH channels ch.toNat)) :
    ZVMWriteHandle env m channels ch buffer size offset = .ret (-EINVAL) := by
  have hg : ¬(ch < 0 ∨ ch ≥ (channels.length : Int)) := by omega
  have h1 : ¬size < 0 := by omega
  have h2 : ¬offset < 0 := by omega
  have h3 : ¬size = 0 := by omega
  have hcnt' : ¬((CH_CH channels ch.toNat).counters LimitKind.PutsLimit ≥
      (CH_CH channels ch.toNat).limits LimitKind.PutsLimit) := by omega
  simp only [putTail] at hpos
  by_cases hc : CH_RND_WRITEABLE (CH_CH channels ch.toNat) = true ∧
      (if CH_SEQ_WRITEABLE (CH_CH channels ch.toNat) then
        (CH_CH channels ch.toNat).putpos else offset) ≥
        (CH_CH channels ch.toNat).limits LimitKind.PutSizeLimit
  · simp [ZVMWriteHandle, NaClUserToSysAddrNullOkay, hg, h1, h2, h3, hbuf,
      hcnt', hc]
  · simp [ZVMWriteHandle, NaClUserToSysAddrNullOkay, hg, h1, h2, h3, hbuf,
      hcnt', hc, hseq, hpos]

/-- Witness for C10: the sequential-writable fixture channel with cursor 110
(= size 10 + remaining budget 100) rejects a validated 1-byte write. -/
theorem C10_seq_write_extent_bound_witness :
    ZVMWriteHandle envW mW [cSeqW] 0 0 1 0 = .ret (-EINVAL) :=
  C10_seq_write_extent_bound envW mW [cSeqW] 0 0 1 0 (by decide) (by decide)
    (by decide) (by decide) (by decide) (by decide) (by decide) (by decide)

/-- C3 counterexample: with the eof flag set, a read whose size argument is
negative still returns -EFAULT, so it is not true that every subsequent read
on an eof channel returns 0 and never an error. -/
theorem C3_counterexample :
    cEof.eof = true ∧
    ZVMReadHandle envW mW [cEof] 0 0 (-1) 0 = .ret (-EFAULT) ∧
    IOResult.ret (-EFAULT) ≠ .ret 0 := by decide

/-- C3 amended: once the eof flag is set, every subsequent read that passes
argument and buffer validation (valid handle, size ≥ 0, offset ≥ 0, writable
destination range) returns 0 — success, not an error — without reaching the
read-count or read-byte quota checks and without delegating any transfer. -/
theorem C3_amended_eof_read_zero (env : Env) (m : UserMap)
    (channels : List ChannelDesc) (ch : Int) (buffer : Nat) (size offset : Int)
    (hlo : 0 ≤ ch) (hhi : ch < (channels.length : Int)) (hs : 0 ≤ size)
    (ho : 0 ≤ offset)
    (hbuf : CheckUserMap m (env.memStart + buffer) size.toNat PROT_WRITE ≠ -1)
    (heof : (CH_CH channels ch.toNat).eof = true) :
    ZVMReadHandle env m channels ch buffer size offset = .ret 0 := by
  have hg : ¬(ch < 0 ∨ ch ≥ (channels.length : Int)) := by omega
  have h1 : ¬size < 0 := by omega
  have h2 : ¬offset < 0 := by omega
  by_cases h3 : size = 0
  · simp [ZVMReadHandle, hg, h1, h2, h3]
  · by_cases hsr : CH_SEQ_READABLE (CH_CH channels ch.toNat) = true
    · simp [ZVMReadHandle, ZVMReadTail, NaClUserToSysAddrNullOkay, hg, h1, h2,
        h3, hbuf, hsr, heof]
    · by_cases hz : wrap32 (min ((CH_CH channels ch.toNat).size - offset) size) = 0
      · simp [ZVMReadHandle, NaClUserToSysAddrNullOkay, hg, h1, h2, h3, hbuf,
          hsr, hz]
      · simp [ZVMReadHandle, ZVMReadTail, NaClUserToSysAddrNullOkay, hg, h1,
          h2, h3, hbuf, hsr, hz, heof]

/-- Witness for C3 amended: a validated 3-byte read on the eof fixture channel
returns 0. -/
theorem C3_amended_eof_read_zero_witness :
    ZVMReadHandle envW mW [cEof] 0 0 3 0 = .ret 0 :=
  C3_amended_eof_read_zero envW mW [cEof] 0 0 3 0 (by decide) (by decide)
    (by decide) (by decide) (by decide) (by decide)

/-- C4 counterexample: on a channel whose read-count quota is exhausted but
whose eof flag is set, a validated read returns 0 rather than -EDQUOT — the
eof check precedes the quota check — so the claim fails as stated. -/
theorem C4_counterexample :
    cEofQuota.counters LimitKind.GetsLimit ≥ cEofQuota.limits LimitKind.GetsLimit ∧
    ZVMReadHandle envW mW [cEofQuota] 0 0 1 0 = .ret 0 ∧
    IOResult.ret 0 ≠ .ret (-EDQUOT) := by decide

/-- C4 amended: once the operation-count quota is exhausted, a Read that
passes argument validation and actually reaches the quota check (eof unset
and, on a non-sequential-readable channel, the end-of-channel clamp leaving a
nonzero size) returns -EDQUOT with no transfer delegated; a Write that passes
argument validation returns -EDQUOT with no transfer delegated,
unconditionally. -/
theorem C4_amended_count_quota (env : Env) (m : UserMap)
    (channels : List ChannelDesc) (ch : Int) (buffer : Nat) (size offset : Int)
    (hlo : 0 ≤ ch) (hhi : ch < (channels.length : Int)) (hs : 0 < size)
    (ho : 0 ≤ offset) :
    (CheckUserMap m (env.memStart + buffer) size.toNat PROT_WRITE ≠ -1 →
      (CH_CH channels ch.toNat).eof = false →
      (CH_SEQ_READABLE (CH_CH channels ch.toNat) = true ∨
        wrap32 (min ((CH_CH channels ch.toNat).size - offset) size) ≠ 0) →
      (CH_CH channels ch.toNat).counters LimitKind.GetsLimit ≥
        (CH_CH channels ch.toNat).limits LimitKind.GetsLimit →
      ZVMReadHandle env m channels ch buffer size offset = .ret (-EDQUOT)) ∧
    (CheckUserMap m (env.memStart + buffer) size.toNat PROT_READ ≠ -1 →
      (CH_CH channels ch.toNat).counters LimitKind.PutsLimit ≥
        (CH_CH channels ch.toNat).limits LimitKind.PutsLimit →
      ZVMWriteHandle env m channels ch buffer size offset = .ret (-EDQUOT)) := by
  have hg : ¬(ch < 0 ∨ ch ≥ (channels.length : Int)) := by omega
  have h1 : ¬size < 0 := by omega
  have h2 : ¬offset < 0 := by omega
  have h3 : ¬size = 0 := by omega
  constructor
  · intro hbuf heof hclamp hq
    rcases hclamp with hsr | hz
    · simp [ZVMReadHandle, ZVMReadTail, NaClUserToSysAddrNullOkay, hg, h1, h2,
        h3, hbuf, hsr, heof, hq]
    · by_cases hsr : CH_SEQ_READABLE (CH_CH channels ch.toNat) = true
      · simp [ZVMReadHandle, ZVMReadTail, NaClUserToSysAddrNullOkay, hg, h1,
          h2, h3, hbuf, hsr, heof, hq]
      · simp [ZVMReadHandle, ZVMReadTail, NaClUserToSysAddrNullOkay, hg, h1,
          h2, h3, hbuf, hsr, hz, heof, hq]
  · intro hbuf hq
    simp [ZVMWriteHandle, NaClUserToSysAddrNullOkay, hg, h1, h2, h3, hbuf, hq]

/-- Witness for C4 amended: the fixture channel with all counters at their
limits rejects both a validated read and a validated write with -EDQUOT. -/
theorem C4_amended_count_quota_witness :
    ZVMReadHandle envW mW [cQuota] 0 0 1 0 = .ret (-EDQUOT) ∧
    ZVMWriteHandle envW mW [cQuota] 0 0 1 0 = .ret (-EDQUOT) :=
  ⟨(C4_amended_count_quota envW mW [cQuota] 0 0 1 0 (by decide) (by decide)
      (by decide) (by decide)).1 (by decide) (by decide) (Or.inl (by decide))
      (by decide),
   (C4_amended_count_quota envW mW [cQuota] 0 0 1 0 (by decide) (by decide)
      (by decide) (by decide)).2 (by decide) (by decide)⟩

/-- C2 counterexample: on the random-access fixture channel of declared size
10 (quotas available, eof unset), a validated 5-byte read at offset 11 — an
offset at or beyond the declared size — returns -EDQUOT, not 0: the clamp
makes the effective size negative and the byte-quota check then rejects it. -/
theorem C2_counterexample :
    cRnd10.size ≤ 11 ∧
    ZVMReadHandle envW mW [cRnd10] 0 0 5 11 = .ret (-EDQUOT) ∧
    IOResult.ret (-EDQUOT) ≠ .ret 0 := by decide

/-- C2 amended: for a validated read on a non-sequential-readable channel of
declared size S (handle valid, 0 < size < 2^31, offset ≥ 0, writable buffer):
at offset exactly S the call returns 0 without error; at an offset O with
S < O ≤ S + 2^31, eof unset, the read-count quota available and the byte
quota not overdrawn, the call returns -EDQUOT; and at O < S the delegated
transfer size is min(size, S - O) further clamped to the remaining read-byte
budget. -/
theorem C2_amended_rnd_read (env : Env) (m : UserMap)
    (channels : List ChannelDesc) (ch : Int) (buffer : Nat) (size offset : Int)
    (hlo : 0 ≤ ch) (hhi : ch < (channels.length : Int)) (hs : 0 < size)
    (hs32 : size < 2 ^ 31) (ho : 0 ≤ offset)
    (hbuf : CheckUserMap m (env.memStart + buffer) size.toNat PROT_WRITE ≠ -1)
    (hseq : CH_SEQ_READABLE (CH_CH channels ch.toNat) = false) :
    (offset = (CH_CH channels ch.toNat).size →
      ZVMReadHandle env m channels ch buffer size offset = .ret 0) ∧
    ((CH_CH channels ch.toNat).size < offset →
      offset ≤ (CH_CH channels ch.toNat).size + 2 ^ 31 →
      (CH_CH channels ch.toNat).eof = false →
      (CH_CH channels ch.toNat).counters LimitKind.GetsLimit <
        (CH_CH channels ch.toNat).limits LimitKind.GetsLimit →
      0 ≤ getTail (CH_CH channels ch.toNat) →
      ZVMReadHandle env m channels ch buffer size offset = .ret (-EDQUOT)) ∧
    (offset < (CH_CH channels ch.toNat).size →
      (CH_CH channels ch.toNat).eof = false →
      (CH_CH channels ch.toNat).counters LimitKind.GetsLimit <
        (CH_CH channels ch.toNat).limits LimitKind.GetsLimit →
      1 ≤ getTail (CH_CH channels ch.toNat) →
      ZVMReadHandle env m channels ch buffer size offset =
        .transfer (min (min ((CH_CH channels ch.toNat).size - offset) size)
          (getTail (CH_CH channels ch.toNat))) offset) := by
  have hg : ¬(ch < 0 ∨ ch ≥ (channels.length : Int)) := by omega
  have h1 : ¬size < 0 := by omega
  have h2 : ¬offset < 0 := by omega
  have h3 : ¬size = 0 := by omega
  refine ⟨?_, ?_, ?_⟩
  · intro hoff
    have hzz : wrap32 (min ((CH_CH channels ch.toNat).size - offset) size) = 0 := by
      rw [hoff, sub_self, min_eq_left hs.le]
      decide
    simp [ZVMReadHandle, NaClUserToSysAddrNullOkay, hg, h1, h2, h3, hbuf,
      hseq, hzz]
  · intro hlt hle heof hq htail
    simp only [getTail] at htail
    have hmin : min ((CH_CH channels ch.toNat).size - offset) size =
        (CH_CH channels ch.toNat).size - offset := min_eq_left (by omega)
    have hw : wrap32 ((CH_CH channels ch.toNat).size - offset) =
        (CH_CH channels ch.toNat).size - offset :=
      wrap32_eq_of_range _ (by omega) (by omega)
    have hnz : ¬((CH_CH channels ch.toNat).size - offset = 0) := by omega
    have hq' : ¬((CH_CH channels ch.toNat).counters LimitKind.GetsLimit ≥
        (CH_CH channels ch.toNat).limits LimitKind.GetsLimit) := by omega
    have hgt : ¬((CH_CH channels ch.toNat).size - offset >
        (CH_CH channels ch.toNat).limits LimitKind.GetSizeLimit -
        (CH_CH channels ch.toNat).counters LimitKind.GetSizeLimit) := by omega
    have hlt1 : (CH_CH channels ch.toNat).size - offset < 1 := by omega
    simp [ZVMReadHandle, ZVMReadTail, NaClUserToSysAddrNullOkay, hg, h1, h2,
      h3, hbuf, hseq, hmin, hw, hnz, heof, hq', hgt, hlt1]
  · intro hlt heof hq htail
    simp only [getTail] at htail ⊢
    have hmge : (1:Int) ≤ min ((CH_CH channels ch.toNat).size - offset) size :=
      le_min (by omega) (by omega)
    have hmlt : min ((CH_CH channels ch.toNat).size - offset) size < 2 ^ 31 :=
      lt_of_le_of_lt (min_le_right _ _) hs32
    have hw : wrap32 (min ((CH_CH channels ch.toNat).size - offset) size) =
        min ((CH_CH channels ch.toNat).size - offset) size :=
      wrap32_eq_of_range _ (by omega) hmlt
    have hnz : ¬(min ((CH_CH channels ch.toNat).size - offset) size = 0) := by
      omega
    have hq' : ¬((CH_CH channels ch.toNat).counters LimitKind.GetsLimit ≥
        (CH_CH channels ch.toNat).limits LimitKind.GetsLimit) := by omega
    by_cases hgt : min ((CH_CH channels ch.toNat).size - offset) size >
        (CH_CH channels ch.toNat).limits LimitKind.GetSizeLimit -
        (CH_CH channels ch.toNat).counters LimitKind.GetSizeLimit
    · have hwt : wrap32 ((CH_CH channels ch.toNat).limits LimitKind.GetSizeLimit -
          (CH_CH channels ch.toNat).counters LimitKind.GetSizeLimit) =
          (CH_CH channels ch.toNat).limits LimitKind.GetSizeLimit -
          (CH_CH channels ch.toNat).counters LimitKind.GetSizeLimit :=
        wrap32_eq_of_range _ (by omega) (by omega)
      have hge1 : ¬((CH_CH channels ch.toNat).limits LimitKind.GetSizeLimit -
          (CH_CH channels ch.toNat).counters LimitKind.GetSizeLimit < 1) := by
        omega
      have hmr : min (min ((CH_CH channels ch.toNat).size - offset) size)
          ((CH_CH channels ch.toNat).limits LimitKind.GetSizeLimit -
           (CH_CH channels ch.toNat).counters LimitKind.GetSizeLimit) =
          (CH_CH channels ch.toNat).limits LimitKind.GetSizeLimit -
          (CH_CH channels ch.toNat).counters LimitKind.GetSizeLimit :=
        min_eq_right hgt.le
      simp [ZVMReadHandle, ZVMReadTail, NaClUserToSysAddrNullOkay, hg, h1, h2,
        h3, hbuf, hseq, hw, hnz, heof, hq', hgt, hwt, hge1, hmr]
    · have hge1 : ¬(min ((CH_CH channels ch.toNat).size - offset) size < 1) := by
        omega
      have hmr : min (min ((CH_CH channels ch.toNat).size - offset) size)
          ((CH_CH channels ch.toNat).limits LimitKind.GetSizeLimit -
           (CH_CH channels ch.toNat).counters LimitKind.GetSizeLimit) =
          min ((CH_CH channels ch.toNat).size - offset) size :=
        min_eq_left (not_lt.mp hgt)
      simp [ZVMReadHandle, ZVMReadTail, NaClUserToSysAddrNullOkay, hg, h1, h2,
        h3, hbuf, hseq, hw, hnz, heof, hq', hgt, hge1, hmr]

/-- Witness for C2 amended: a 4-byte read at offset 3 on the size-10 fixture
channel delegates a 4-byte transfer at offset 3 (min(4, 10-3) = 4, budget
100 not binding). -/
theorem C2_amended_rnd_read_witness :
    ZVMReadHandle envW mW [cRnd10] 0 0 4 3 = .transfer 4 3 :=
  ((C2_amended_rnd_read envW mW [cRnd10] 0 0 4 3 (by decide) (by decide)
      (by decide) (by decide) (by decide) (by decide) (by decide)).2.2
    (by decide) (by decide) (by decide) (by decide)).trans (by decide)

/-- C1: for a protection request with flags exec or read+exec over a
page-aligned, mapped, readable range, a validator rejection makes
ZVMProtHandle return -EPERM with the protection map exactly as it was before
the call (the range never becomes executable); only when the validator
accepts is the protection change applied (here with the OS call succeeding,
every page of the range receives the requested bits). -/
theorem C1_exec_fail_closed (env : Env) (m : UserMap) (addr size : Nat)
    (prot : Int)
    (hsz : size % NACL_MAP_PAGESIZE = 0)
    (hsys : (env.memStart + addr) % NACL_MAP_PAGESIZE = 0)
    (hmap : CheckUserMap m (env.memStart + addr) size 0 = 0)
    (hprot : prot = (PROT_EXEC : Int) ∨
      prot = ((PROT_READ ||| PROT_EXEC : Nat) : Int))
    (hread : CheckUserMap m (env.memStart + addr) size PROT_READ = 0) :
    (env.validates (env.memStart + addr) size addr = false →
      ZVMProtHandle env m addr size prot = (-EPERM, m)) ∧
    (env.validates (env.memStart + addr) size addr = true → env.zmOk = true →
      ZVMProtHandle env m addr size prot =
        (0, fun p => if (pageSpan (env.memStart + addr) size).contains p
          then some prot.toNat else m p)) := by
  have hnp : ¬(prot = (PROT_NONE : Int) ∨ prot = (PROT_READ : Int) ∨
      prot = (PROT_WRITE : Int) ∨
      prot = ((PROT_READ ||| PROT_WRITE : Nat) : Int)) := by
    rcases hprot with h | h <;> subst h <;> decide
  have hx : prot = (PROT_EXEC : Int) ∨
      prot = ((PROT_READ ||| PROT_EXEC : Nat) : Int) := hprot
  constructor
  · intro hv
    simp [ZVMProtHandle, NaClUserToSysAddrNullOkay, hsz, hsys, hmap, hnp, hx,
      hread, hv]
  · intro hv hzm
    simp [ZVMProtHandle, NaClUserToSysAddrNullOkay, Zmprotect, hsz, hsys,
      hmap, hnp, hx, hread, hv, hzm]

/-- Witness for C1: with the rejecting validator of envW, an exec request on
the mapped, readable page 0 returns -EPERM and leaves the map untouched. -/
theorem C1_exec_fail_closed_witness :
    ZVMProtHandle envW mW 0 NACL_MAP_PAGESIZE (PROT_EXEC : Int) =
      (-EPERM, mW) :=
  (C1_exec_fail_closed envW mW 0 NACL_MAP_PAGESIZE (PROT_EXEC : Int)
    (by decide) (by decide) (by decide) (Or.inl rfl) (by decide)).1 rfl

